import Mathlib

/-!
Verification of the Norway hexagonal-map dashboard (`src/Code.py`).

The program is a single Streamlit script: a cached data generator drawing
uniform random points inside a fixed Norway bounding box, three sidebar
sliders, a regenerate button that clears the memoization cache, and a
declarative pydeck scene (HexagonLayer, ViewState, Deck).

Modelling choices:
* coordinates are rationals (`ℚ`);
* `np.random.uniform(low, high, n)` consumes `n` values from a random
  stream `rng : ℕ → ℚ` whose values lie in the half-open unit interval
  `[0, 1)` (numpy samples from `[low, high)`), mapping each unit draw `u`
  to `low + u * (high - low)`; `generate_data` first draws the `lat`
  array and then the `lon` array from the same stream;
* the `@st.cache_data` memoization is an explicit cache mapping the
  point-count argument to the cached DataFrame, threaded through calls;
  `st.cache_data.clear()` empties it;
* a Streamlit slider clamps the user's choice to `[min_value, max_value]`
  and snaps it onto the `step` grid starting at `min_value`;
* the pydeck `Layer`, `ViewState` and `Deck` objects are records holding
  exactly the keyword arguments the script passes.
-/

/-- The fixed bounding box record (`NORWAY_BOUNDS` in the source): four
constants `min_lon`, `max_lon`, `min_lat`, `max_lat`. -/
structure Bounds where
  min_lon : ℚ
  max_lon : ℚ
  min_lat : ℚ
  max_lat : ℚ
deriving DecidableEq

/-- Approximate bounding box for Norway, from the source:
`{"min_lon": 4.0, "max_lon": 31.5, "min_lat": 57.5, "max_lat": 71.5}`. -/
def NORWAY_BOUNDS : Bounds :=
  { min_lon := 4
    max_lon := 63/2
    min_lat := 115/2
    max_lat := 143/2 }

/-- One uniform draw: maps a unit-interval sample `u ∈ [0,1)` into
`[low, high)` by `low + u * (high - low)`. -/
def uniformSample (low high u : ℚ) : ℚ :=
  low + u * (high - low)

/-- `np.random.uniform(low, high, n)` as a list of `n` draws taken from
the stream `u` at indices `0, …, n-1`. -/
def npUniform (low high : ℚ) (n : ℕ) (u : ℕ → ℚ) : List ℚ :=
  (List.range n).map (fun i => uniformSample low high (u i))

/-- The generated DataFrame: the `lat` column and the `lon` column
(`pd.DataFrame({'lat': lat, 'lon': lon})`). -/
structure DataFrame where
  lat : List ℚ
  lon : List ℚ
deriving DecidableEq

/-- The rows of the DataFrame: the coordinate pairs `(lat, lon)`. -/
def DataFrame.rows (df : DataFrame) : List (ℚ × ℚ) :=
  df.lat.zip df.lon

/-- `generate_data(num_points)` from the source: draws the `lat` array
(`num_points` uniform samples in `[min_lat, max_lat)`) and then the `lon`
array (`num_points` uniform samples in `[min_lon, max_lon)`) from the
random stream, and packs them into a DataFrame. The module-global
`NORWAY_BOUNDS` the Python function reads is passed explicitly. -/
def generate_data (bounds : Bounds) (num_points : ℕ) (rng : ℕ → ℚ) : DataFrame :=
  let lat := npUniform bounds.min_lat bounds.max_lat num_points rng
  let lon := npUniform bounds.min_lon bounds.max_lon num_points (fun i => rng (num_points + i))
  { lat := lat, lon := lon }

/-- The `st.cache_data` memoization cache for `generate_data`, keyed by
its single argument `num_points`. -/
def Cache : Type := ℕ → Option DataFrame

/-- The empty cache (no memoized entries). -/
def Cache.empty : Cache := fun _ => none

/-- `generate_data` as called through the `@st.cache_data` decorator: a
cache hit returns the memoized DataFrame unchanged; a miss computes
`generate_data` and stores the result under the `num_points` key. -/
def cached_generate_data (bounds : Bounds) (num_points : ℕ) (rng : ℕ → ℚ)
    (c : Cache) : DataFrame × Cache :=
  match c num_points with
  | some df => (df, c)
  | none =>
    let df := generate_data bounds num_points rng
    (df, fun k => if k = num_points then some df else c k)

/-- `st.cache_data.clear()`: empties the whole memoization cache. -/
def cache_data_clear (_c : Cache) : Cache := fun _ => none

/-- A Streamlit slider with the given `min_value`, `max_value`, default
`value` and `step`: the widget clamps the user's choice into
`[min_value, max_value]` and snaps it onto the step grid anchored at
`min_value`. -/
def st_slider (min_value max_value _value step : ℕ) (user : ℕ) : ℕ :=
  min_value + (min (max user min_value) max_value - min_value) / step * step

/-- The "Number of data points to generate" slider:
`min_value=100, max_value=10000, value=5000, step=100`. -/
def num_points_slider (user : ℕ) : ℕ :=
  st_slider 100 10000 5000 100 user

/-- The "Hexagon radius (meters)" slider:
`min_value=1000, max_value=50000, value=10000, step=1000`. -/
def hexagon_radius_slider (user : ℕ) : ℕ :=
  st_slider 1000 50000 10000 1000 user

/-- The "Elevation Scale" slider: `min_value=1, max_value=100, value=20,
step=1`. -/
def elevation_scale_slider (user : ℕ) : ℕ :=
  st_slider 1 100 20 1 user

/-- The pydeck `HexagonLayer` record: the keyword arguments the script
passes to `pdk.Layer`. Color components are the 8-bit integers of the
source literals. -/
structure Layer where
  data : DataFrame
  get_position : List String
  radius : ℕ
  elevation_scale : ℕ
  elevation_range : List ℕ
  extruded : Bool
  pickable : Bool
  auto_highlight : Bool
  coverage : ℕ
  color_range : List (List ℕ)
deriving DecidableEq

/-- The `layer` object built by the script, as a function of the
generated data and the two slider values it reads. -/
def layer (data : DataFrame) (hexagon_radius elevation_scale : ℕ) : Layer :=
  { data := data
    get_position := ["lon", "lat"]
    radius := hexagon_radius
    elevation_scale := elevation_scale
    elevation_range := [0, 1000]
    extruded := true
    pickable := true
    auto_highlight := true
    coverage := 1
    color_range :=
      [[255, 255, 178, 100],
       [254, 204, 92, 120],
       [253, 141, 60, 150],
       [240, 59, 32, 180],
       [189, 0, 38, 220]] }

/-- The pydeck `ViewState` record. -/
structure ViewState where
  longitude : ℚ
  latitude : ℚ
  zoom : ℕ
  pitch : ℕ
  bearing : ℕ
deriving DecidableEq

/-- The `view_state` object built by the script: centered roughly on
Norway, fixed camera pose. -/
def view_state : ViewState :=
  { longitude := 10
    latitude := 64
    zoom := 4
    pitch := 50
    bearing := 0 }

/-- The tooltip dict passed to `pdk.Deck`. -/
structure Tooltip where
  html : String
  style_color : String
deriving DecidableEq

/-- The pydeck `Deck` record. -/
structure Deck where
  map_style : String
  layers : List Layer
  initial_view_state : ViewState
  tooltip : Tooltip
deriving DecidableEq

/-- The `deck` object built by the script, as a function of the data and
the two slider values flowing into its layer. -/
def deck (data : DataFrame) (hexagon_radius elevation_scale : ℕ) : Deck :=
  { map_style := "mapbox://styles/mapbox/light-v10"
    layers := [layer data hexagon_radius elevation_scale]
    initial_view_state := view_state
    tooltip :=
      { html := "<b>Elevation Value:</b> {elevationValue}<br/><b>Number of Points:</b> {count}"
        style_color := "white" } }

/-- The per-session application state visible to the script: the bounding
box module global and the memoization cache. -/
structure AppState where
  bounds : Bounds
  cache : Cache

/-- One top-to-bottom run of the script: read the three sliders, obtain
the data through the cached generator, and build the deck. -/
def script_run (s : AppState) (user_points user_radius user_elev : ℕ)
    (rng : ℕ → ℚ) : AppState × Deck :=
  let n := num_points_slider user_points
  let r := hexagon_radius_slider user_radius
  let e := elevation_scale_slider user_elev
  let res := cached_generate_data s.bounds n rng s.cache
  ({ bounds := s.bounds, cache := res.2 }, deck res.1 r e)

/-- The "Regenerate Data" button handler: `st.cache_data.clear()` (the
subsequent `st.rerun()` is a fresh `script_run`). -/
def regenerate (s : AppState) : AppState :=
  { bounds := s.bounds, cache := cache_data_clear s.cache }

/-- The `color_range` literal of the source layer, named for reuse in
statements: five stops from light yellow to dark red. -/
def color_ramp : List (List ℕ) :=
  [[255, 255, 178, 100],
   [254, 204, 92, 120],
   [253, 141, 60, 150],
   [240, 59, 32, 180],
   [189, 0, 38, 220]]

/-- A concrete random stream, constantly `1/2`, used as a witness input. -/
def halfStream : ℕ → ℚ := fun _ => 1/2

/-- A concrete empty DataFrame used in closed statements. -/
def emptyDF : DataFrame := { lat := [], lon := [] }

/-- Every element of `npUniform low high n u` lies in `[low, high)` when
`low < high` and the stream draws from `[0, 1)`. -/
lemma npUniform_bounds {low high : ℚ} (hlt : low < high) (n : ℕ) (u : ℕ → ℚ)
    (hu : ∀ i, 0 ≤ u i ∧ u i < 1) :
    ∀ x ∈ npUniform low high n u, low ≤ x ∧ x < high := by
  intro x hx
  simp only [npUniform, List.mem_map, List.mem_range] at hx
  obtain ⟨i, _, rfl⟩ := hx
  obtain ⟨h0, h1⟩ := hu i
  unfold uniformSample
  constructor
  · nlinarith
  · nlinarith

/-- C1: for every valid point count N in [100, 10000], `generate_data`
returns a DataFrame with exactly N coordinate pairs. -/
theorem generate_data_row_count (N : ℕ) (rng : ℕ → ℚ)
    (h1 : 100 ≤ N) (h2 : N ≤ 10000) :
    (generate_data NORWAY_BOUNDS N rng).rows.length = N := by
  simp [DataFrame.rows, generate_data, npUniform]

/-- Witness for C1 at N = 100. -/
theorem generate_data_row_count_witness :
    100 ≤ 100 ∧ 100 ≤ 10000 ∧
      (generate_data NORWAY_BOUNDS 100 halfStream).rows.length = 100 :=
  ⟨le_refl 100, by norm_num,
    generate_data_row_count 100 halfStream (le_refl 100) (by norm_num)⟩

/-- C2: when the unit stream draws from [0, 1), every generated longitude
lies in [4.0, 31.5] and every generated latitude lies in [57.5, 71.5]. -/
theorem generated_points_within_box (N : ℕ) (rng : ℕ → ℚ)
    (hrng : ∀ i, 0 ≤ rng i ∧ rng i < 1) :
    (∀ x ∈ (generate_data NORWAY_BOUNDS N rng).lon, 4 ≤ x ∧ x ≤ 63/2) ∧
    (∀ y ∈ (generate_data NORWAY_BOUNDS N rng).lat, 115/2 ≤ y ∧ y ≤ 143/2) := by
  constructor
  · intro x hx
    have hx' : x ∈ npUniform 4 (63/2) N (fun i => rng (N + i)) := hx
    have h := npUniform_bounds (by norm_num) N (fun i => rng (N + i))
      (fun i => hrng (N + i)) x hx'
    exact ⟨h.1, le_of_lt h.2⟩
  · intro y hy
    have hy' : y ∈ npUniform (115/2) (143/2) N rng := hy
    have h := npUniform_bounds (by norm_num) N rng hrng y hy'
    exact ⟨h.1, le_of_lt h.2⟩

/-- Witness for C2 at N = 100 with the constant 1/2 stream. -/
theorem generated_points_within_box_witness :
    (∀ i, 0 ≤ halfStream i ∧ halfStream i < 1) ∧
    ((∀ x ∈ (generate_data NORWAY_BOUNDS 100 halfStream).lon, 4 ≤ x ∧ x ≤ 63/2) ∧
     (∀ y ∈ (generate_data NORWAY_BOUNDS 100 halfStream).lat, 115/2 ≤ y ∧ y ≤ 143/2)) :=
  ⟨fun _ => by norm_num [halfStream],
    generated_points_within_box 100 halfStream (fun _ => by norm_num [halfStream])⟩

/-- C9: the upper bounds are strict (longitude < 31.5, latitude < 71.5)
because each uniform draw lands in the half-open interval [low, high). -/
theorem generated_points_strict_upper (N : ℕ) (rng : ℕ → ℚ)
    (hrng : ∀ i, 0 ≤ rng i ∧ rng i < 1) :
    (∀ x ∈ (generate_data NORWAY_BOUNDS N rng).lon, x < 63/2) ∧
    (∀ y ∈ (generate_data NORWAY_BOUNDS N rng).lat, y < 143/2) := by
  constructor
  · intro x hx
    have hx' : x ∈ npUniform 4 (63/2) N (fun i => rng (N + i)) := hx
    exact (npUniform_bounds (by norm_num) N (fun i => rng (N + i))
      (fun i => hrng (N + i)) x hx').2
  · intro y hy
    have hy' : y ∈ npUniform (115/2) (143/2) N rng := hy
    exact (npUniform_bounds (by norm_num) N rng hrng y hy').2

/-- Witness for C9 at N = 2 with the constant 1/2 stream. -/
theorem generated_points_strict_upper_witness :
    (∀ i, 0 ≤ halfStream i ∧ halfStream i < 1) ∧
    ((∀ x ∈ (generate_data NORWAY_BOUNDS 2 halfStream).lon, x < 63/2) ∧
     (∀ y ∈ (generate_data NORWAY_BOUNDS 2 halfStream).lat, y < 143/2)) :=
  ⟨fun _ => by norm_num [halfStream],
    generated_points_strict_upper 2 halfStream (fun _ => by norm_num [halfStream])⟩

/-- C3: a second call to the cached generator with the same count and no
invalidation in between returns the memoized DataFrame of the first call,
whatever fresh randomness the second call would have drawn. -/
theorem cached_second_call_returns_memo (b : Bounds) (N : ℕ)
    (rng1 rng2 : ℕ → ℚ) (c : Cache) :
    (cached_generate_data b N rng2 (cached_generate_data b N rng1 c).2).1
      = (cached_generate_data b N rng1 c).1 := by
  rcases h : c N with _ | df <;> simp [cached_generate_data, h]

/-- C4: the regenerate action leaves an empty cache, so the next cached
call with any count recomputes a fresh sample instead of returning a
memoized result. -/
theorem regenerate_clears_and_recomputes (s : AppState) :
    (∀ k, (regenerate s).cache k = none) ∧
    (∀ N rng,
      (cached_generate_data (regenerate s).bounds N rng (regenerate s).cache).1
        = generate_data (regenerate s).bounds N rng) :=
  ⟨fun _ => rfl, fun _ _ => rfl⟩

/-- C10: `st.cache_data.clear()` empties every key of the cache: no
previously memoized entry, for any count, survives. -/
theorem clear_empties_all_keys (c : Cache) (k : ℕ) :
    cache_data_clear c k = none := rfl

/-- C6: every count reaching the generator comes from the slider, which
clamps it into [100, 10000] (hence positive), and the generator is total
there: it returns exactly that many rows, with no error condition. -/
theorem slider_clamped_count_safe (user : ℕ) (rng : ℕ → ℚ) :
    100 ≤ num_points_slider user ∧
    num_points_slider user ≤ 10000 ∧
    0 < num_points_slider user ∧
    (generate_data NORWAY_BOUNDS (num_points_slider user) rng).rows.length
      = num_points_slider user := by
  have hmain : 100 ≤ num_points_slider user ∧ num_points_slider user ≤ 10000 := by
    unfold num_points_slider st_slider
    have h1 : (min (max user 100) 10000 - 100) / 100 * 100
        ≤ min (max user 100) 10000 - 100 := Nat.div_mul_le_self _ _
    omega
  refine ⟨hmain.1, hmain.2, by omega, ?_⟩
  simp [DataFrame.rows, generate_data, npUniform]

/-- C7: the scene description fixes elevation_range = [0, 1000], enables
extrusion, enables hover/tooltip, and sets the camera to longitude 10.0,
latitude 64.0, zoom 4, pitch 50, bearing 0, independently of the slider
inputs. -/
theorem scene_constants_fixed (d : DataFrame) (r e : ℕ) :
    (layer d r e).elevation_range = [0, 1000] ∧
    (layer d r e).extruded = true ∧
    (layer d r e).pickable = true ∧
    (layer d r e).auto_highlight = true ∧
    (deck d r e).initial_view_state.longitude = 10 ∧
    (deck d r e).initial_view_state.latitude = 64 ∧
    (deck d r e).initial_view_state.zoom = 4 ∧
    (deck d r e).initial_view_state.pitch = 50 ∧
    (deck d r e).initial_view_state.bearing = 0 ∧
    (deck d r e).tooltip.html
      = "<b>Elevation Value:</b> {elevationValue}<br/><b>Number of Points:</b> {count}" :=
  ⟨rfl, rfl, rfl, rfl, rfl, rfl, rfl, rfl, rfl, rfl⟩

/-- C8: the bounding box is the static constant (4.0, 31.5, 57.5, 71.5)
and no operation of the program (a full script run, i.e. data generation
plus rerender, or the cache-clearing regeneration) mutates it. -/
theorem norway_bounds_static (s : AppState) (up ur ue : ℕ) (rng : ℕ → ℚ) :
    NORWAY_BOUNDS.min_lon = 4 ∧ NORWAY_BOUNDS.max_lon = 63/2 ∧
    NORWAY_BOUNDS.min_lat = 115/2 ∧ NORWAY_BOUNDS.max_lat = 143/2 ∧
    (script_run s up ur ue rng).1.bounds = s.bounds ∧
    (regenerate s).bounds = s.bounds :=
  ⟨rfl, rfl, rfl, rfl, rfl, rfl⟩

/-- C5 counterexample: the color stops are not normalized-RGBA tuples:
the first stop's red component is 255, not a value in [0, 1]. -/
theorem color_range_not_normalized :
    ¬ ∀ stop ∈ (layer emptyDF 10000 20).color_range, ∀ comp ∈ stop, comp ≤ 1 := by
  decide

/-- C5 amended: the color ramp has exactly five stops, ordered from light
yellow (first) to dark red (last) with strictly increasing opacity, each
stop an RGBA tuple of 8-bit integer components in [0, 255]. -/
theorem color_range_five_byte_stops (d : DataFrame) (r e : ℕ) :
    (layer d r e).color_range = color_ramp ∧
    color_ramp.length = 5 ∧
    (∀ stop ∈ color_ramp, stop.length = 4 ∧ ∀ comp ∈ stop, comp ≤ 255) ∧
    color_ramp.head? = some [255, 255, 178, 100] ∧
    color_ramp.getLast? = some [189, 0, 38, 220] ∧
    List.Chain' (fun a b => a < b) (color_ramp.map (fun stop => stop.getD 3 0)) :=
  ⟨rfl, rfl, by decide, rfl, by decide,
    by norm_num [color_ramp, List.chain'_cons]⟩
